import Mathlib

/-!
Verification development for the Audac TCP integration
(`custom_components/audac`): a shallow embedding of the device
communication layer — frame codec, transport read loop, dispatcher retry
loop, the MTX and XMP device drivers, and the coordinator's local trigger
sub-state — together with theorems checking the documented properties.

Python strings are modelled as `List Char` (the protocol is ASCII).
Python `str.strip` is modelled with `Char.isWhitespace` (space, tab, CR,
LF), which agrees with Python on the ASCII text this protocol carries.
Python byte strings are modelled as `List Nat` (one byte per element).
-/

/-- Python strings are modelled as lists of characters. -/
abbrev Str := List Char

/-- Shorthand turning a Lean string literal into the `Str` model. -/
def S (s : String) : Str := s.data

/-- The single-quote character (used inside Python error-message text). -/
def quoteC : Char := Char.ofNat 39

/-- Python `str.strip()`: drop whitespace from both ends. -/
def trimStr (s : Str) : Str :=
  ((s.dropWhile Char.isWhitespace).reverse.dropWhile Char.isWhitespace).reverse

/-- Python `s.split(sep)` for a single-character separator: splits on every
occurrence, keeping empty pieces (so `"".split(sep) == [""]`). -/
def splitOnChar (sep : Char) : Str → List Str
  | [] => [[]]
  | c :: rest =>
    if c = sep then [] :: splitOnChar sep rest
    else
      match splitOnChar sep rest with
      | [] => [[c]]
      | h :: t => (c :: h) :: t

/-- Python `sep.join(pieces)` for a single-character separator. -/
def joinChar (sep : Char) : List Str → Str
  | [] => []
  | [s] => s
  | s :: rest => s ++ sep :: joinChar sep rest

/-- Decimal digits of a natural number, as characters. -/
def natStr (n : Nat) : Str := (toString n).data

/-- Python `str(i)` for an integer: decimal digits with a leading minus
sign for negatives. -/
def intStr (i : Int) : Str := (toString i).data

/-- Python `int(s)` on a string: optional surrounding whitespace, optional
sign, then one or more decimal digits; any other shape raises
`ValueError`, modelled as `none`.  (Python's underscore digit grouping is
not modelled; no protocol token uses it.) -/
def pyInt (s : Str) : Option Int :=
  let t := trimStr s
  match t with
  | '-' :: ds => if ds ≠ [] ∧ ds.all Char.isDigit then some (-(Int.ofNat (digitsVal ds))) else none
  | '+' :: ds => if ds ≠ [] ∧ ds.all Char.isDigit then some (Int.ofNat (digitsVal ds)) else none
  | ds => if ds ≠ [] ∧ ds.all Char.isDigit then some (Int.ofNat (digitsVal ds)) else none
where
  /-- Value of a digit string. -/
  digitsVal (ds : Str) : Nat := ds.foldl (fun acc c => acc * 10 + (c.toNat - 48)) 0

/-- Python `str.lower()` restricted to ASCII (all module ids are ASCII). -/
def pyLower (s : Str) : Str := s.map Char.toLower

/-- `b` is a contiguous substring of `hay`. -/
def strStartsWith : Str → Str → Bool
  | [], _ => true
  | _ :: _, [] => false
  | n :: ns, h :: hs => n = h && strStartsWith ns hs

/-- `needle` occurs as a contiguous substring of `hay`. -/
def strHas (needle : Str) : (hay : Str) → Bool
  | [] => strStartsWith needle []
  | h :: hs => strStartsWith needle (h :: hs) || strHas needle hs

/-- A dynamically typed Python value, as stored in the state dictionaries
(`previous_zones` field values and the coordinator's trigger entries). -/
inductive PyVal
  | int (i : Int)
  | str (s : Str)
  | bool (b : Bool)
  | none
deriving DecidableEq, Repr

/-- Python `str(v)`. -/
def pyStr : PyVal → Str
  | .int i => intStr i
  | .str s => s
  | .bool b => if b then S "True" else S "False"
  | .none => S "None"

/-- Python truthiness `bool(v)`: nonzero integers and nonempty strings are
truthy (in particular `bool("0")` is `True`). -/
def pyTruthy : PyVal → Bool
  | .int i => i ≠ 0
  | .str s => s ≠ []
  | .bool b => b
  | .none => false

/-- Python `int(v)` on a dynamic value (`None` raises `TypeError`). -/
def pyIntOf : PyVal → Option Int
  | .int i => some i
  | .str s => pyInt s
  | .bool b => some (if b then 1 else 0)
  | .none => Option.none

/-- Association-list model of a Python `dict`: lookup of the first (and
only, for dicts) binding of a key. -/
def alookup {α β : Type} [DecidableEq α] : List (α × β) → α → Option β
  | [], _ => Option.none
  | (k, v) :: rest, key => if k = key then some v else alookup rest key

/-- Association-list model of `d[key] = v`: replace the binding in place,
or append it (dict insertion order) when the key is new. -/
def aset {α β : Type} [DecidableEq α] : List (α × β) → α → β → List (α × β)
  | [], k, v => [(k, v)]
  | (k0, v0) :: rest, k, v =>
    if k0 = k then (k, v) :: rest else (k0, v0) :: aset rest k v

/-- Python `enumerate(xs, start)`. -/
def enumFrom {α : Type} : Nat → List α → List (Nat × α)
  | _, [] => []
  | n, x :: xs => (n, x) :: enumFrom (n + 1) xs

/-- Errors raised by the embedded code: `AudacApiError` (client layer) and
`ValueError` (coordinator trigger-action validation), each carrying the
formatted message. -/
inductive Err
  | api (msg : Str)
  | valueError (msg : Str)
deriving DecidableEq, Repr

/-! ### Frame codec (`_send_once`, line 104 and the read-loop parser) -/

/-- A parsed reply frame: the first six `|`-delimited fields of a line. -/
structure Frame6 where
  start : Str
  destination : Str
  source : Str
  command : Str
  argument : Str
  checksum : Str
deriving DecidableEq, Repr

/-- Python `s.encode("ascii", errors="ignore")`: non-ASCII characters are
dropped, the rest map to their code points. -/
def asciiEncode (s : Str) : List Nat :=
  (s.filter (fun c => c.toNat < 128)).map Char.toNat

/-- Python `b.decode("ascii", errors="ignore")`: bytes ≥ 128 are dropped,
the rest map to their characters. -/
def asciiDecode (bs : List Nat) : Str :=
  (bs.filter (fun b => b < 128)).map Char.ofNat

/-- The request frame built at `client.py:104`:
`f"#|{device_address}|{source_id}|{command}|{argument}|U|\r\n"` encoded as
ASCII with non-ASCII characters dropped. -/
def encodeFrame (destination sourceId command argument : Str) : List Nat :=
  asciiEncode
    (S "#|" ++ destination ++ S "|" ++ sourceId ++ S "|" ++ command ++ S "|"
      ++ argument ++ S "|U|\r\n")

/-- The transport's line parser (the body of the read loop,
`client.py:121-134`): decode as ASCII, strip, split on `|`; a line with
fewer than six fields or whose first field is not `"#"` parses to `none`
(the loop skips it); when an accept set is given, a frame whose stripped
command tag is not a member also yields `none` (unsolicited push).  The
command and argument fields are stripped exactly as in the return at
`client.py:138-145`. -/
def parseLine (raw : List Nat) (accept : Option (List Str)) : Option Frame6 :=
  let line := trimStr (asciiDecode raw)
  match splitOnChar '|' line with
  | start :: destination :: source :: command0 :: argument :: checksum :: _ =>
    let command := trimStr command0
    if start ≠ S "#" then Option.none
    else
      match accept with
      | some a =>
        if command ∈ a then
          some ⟨start, destination, source, command, trimStr argument, checksum⟩
        else Option.none
      | Option.none =>
        some ⟨start, destination, source, command, trimStr argument, checksum⟩
  | _ => Option.none

/-- Decode a produced byte string with the transport's line parser and no
accept filter (the codec view used by the round-trip property). -/
def decodeLine (raw : List Nat) : Option Frame6 := parseLine raw Option.none

/-! ### Transport single attempt (`_send_once`, `client.py:94-163`)

The network is an oracle: the outcome of the connection attempt, the
write, and each successive `readline` call that completes before the
wall-clock deadline.  Once the read events are exhausted the deadline has
passed and the `while` loop exits.  The result records whether a socket
was opened and whether it was closed before `_send_once` returned or
raised, which is the resource property under test. -/

/-- Outcome of `asyncio.open_connection` (a failure carries `str(err)`). -/
inductive ConnectOutcome
  | ok
  | fail (msg : Str)
deriving DecidableEq, Repr

/-- Outcome of `writer.write` + `writer.drain`. -/
inductive WriteOutcome
  | ok
  | fail (msg : Str)
deriving DecidableEq, Repr

/-- Outcome of one `reader.readline` call made before the deadline: a
line of bytes (`[]` models `b""`, i.e. EOF) or a raised exception (I/O
error or per-read `asyncio.wait_for` timeout), carrying `str(err)`. -/
inductive ReadEvent
  | line (raw : List Nat)
  | fail (msg : Str)
deriving DecidableEq, Repr

/-- The network environment one `_send_once` call runs against. -/
structure Env where
  connect : ConnectOutcome
  write : WriteOutcome
  reads : List ReadEvent
deriving DecidableEq, Repr

/-- `str(err).strip() or repr(err)` at `client.py:150`; the `repr`
fallback for an all-whitespace message is modelled as the message itself. -/
def errText (m : Str) : Str :=
  if trimStr m = [] then m else trimStr m

/-- The transport-failure message built at `client.py:151-153`. -/
def transportErr (host port command emsg : Str) : Err :=
  .api (S "TCP communication failed (" ++ host ++ S ":" ++ port
    ++ S ", command=" ++ command ++ S "): " ++ emsg)

/-- ASCII-lexicographic comparison of strings (for `sorted(...)`). -/
def strLe : Str → Str → Bool
  | [], _ => true
  | _ :: _, [] => false
  | a :: as, b :: bs =>
    if a.toNat < b.toNat then true
    else if a.toNat = b.toNat then strLe as bs
    else false

/-- Insertion sort by `strLe` (Python `sorted` on a set of strings). -/
def sortStrs : List Str → List Str
  | [] => []
  | s :: rest => insertSorted s (sortStrs rest)
where
  /-- Insert into a sorted list. -/
  insertSorted (s : Str) : List Str → List Str
    | [] => [s]
    | t :: ts => if strLe s t then s :: t :: ts else t :: insertSorted s ts

/-- Python `repr` of a list of strings, e.g. `['VALL']`. -/
def listRepr (xs : List Str) : Str :=
  '[' :: joinChar ' ' ((xs.map (fun s => quoteC :: s ++ [quoteC, ','])))
    |> fun body => body ++ [']']

/-- Result of the read loop at `client.py:115-145`: an accepted frame
(closed, returned), the loop finishing by EOF-break or deadline expiry
with the last raw line read (closed, then the post-loop error is built),
or a raised read exception (the socket is left open). -/
inductive LoopOut
  | accepted (f : Frame6)
  | finished (lastRaw : List Nat)
  | readFail (msg : Str)
deriving DecidableEq, Repr

/-- The `while` loop of `_send_once`: each event is one `readline` that
completed before the deadline; an empty line breaks (EOF); a parsed,
accepted frame returns; anything else is skipped; exhausting the events
means the deadline passed and the loop exits with the last line read. -/
def readLoop (accept : Option (List Str)) : List ReadEvent → List Nat → LoopOut
  | [], lastRaw => .finished lastRaw
  | .fail m :: _, _ => .readFail m
  | .line raw :: rest, lastRaw =>
    if raw = [] then .finished []
    else
      match parseLine raw accept with
      | some f => .accepted f
      | Option.none =>
        have := lastRaw
        readLoop accept rest raw

/-- Decidable equality for `Except` results (used to evaluate the models
on concrete inputs). -/
instance {ε α : Type} [DecidableEq ε] [DecidableEq α] : DecidableEq (Except ε α) := fun a b =>
  match a, b with
  | .ok x, .ok y => if h : x = y then isTrue (by rw [h]) else isFalse (by simp [h])
  | .error x, .error y => if h : x = y then isTrue (by rw [h]) else isFalse (by simp [h])
  | .ok _, .error _ => isFalse (by simp)
  | .error _, .ok _ => isFalse (by simp)

/-- The full result of one `_send_once` call: the returned frame or raised
error, whether a socket was opened, and whether it was closed before the
call finished. -/
structure OnceOut where
  result : Except Err Frame6
  opened : Bool
  closed : Bool
deriving DecidableEq, Repr

/-- `_send_once` (`client.py:94-163`).  Success and normal loop exit close
the writer inside the `try` block; an exception raised by the write or by
a read reaches the `except` clause, which re-raises as `AudacApiError`
without any close — so `closed` is `false` on those paths. -/
def sendOnce (host port command : Str) (accept : Option (List Str)) (env : Env) : OnceOut :=
  match env.connect with
  | .fail m => ⟨.error (transportErr host port command (errText m)), false, false⟩
  | .ok =>
    match env.write with
    | .fail m => ⟨.error (transportErr host port command (errText m)), true, false⟩
    | .ok =>
      match readLoop accept env.reads [] with
      | .accepted f => ⟨.ok f, true, true⟩
      | .readFail m => ⟨.error (transportErr host port command (errText m)), true, false⟩
      | .finished lastRaw =>
        if lastRaw = [] then
          ⟨.error (.api (S "Empty reply from device")), true, true⟩
        else
          let line := trimStr (asciiDecode lastRaw)
          match accept with
          | some a =>
            ⟨.error (.api (S "Did not receive expected reply " ++ listRepr (sortStrs a)
              ++ S " after " ++ quoteC :: command ++ [quoteC] ++ S ". Last frame: "
              ++ quoteC :: line ++ [quoteC])), true, true⟩
          | Option.none =>
            ⟨.error (.api (S "Invalid frame: " ++ quoteC :: line ++ [quoteC])), true, true⟩

/-! ### Dispatcher retry loop (`_send`, `client.py:69-92`)

The single attempt is an oracle from the attempt number (1-based) to its
outcome.  The model returns the overall result, the list of backoff sleep
durations in seconds (exact rationals; the code computes `0.15 * attempt`),
and the number of attempts actually made. -/

/-- The `raise` after the loop: the recorded last error, or the
unreachable fallback message when no attempt ran. -/
def finishSend (lastError : Option Err) : Except Err Frame6 :=
  match lastError with
  | some e => .error e
  | Option.none => .error (.api (S "TCP communication failed with unknown error"))

/-- The `for attempt in range(1, attempts + 1)` loop of `_send`, with the
remaining iteration count as structural fuel.  On failure with attempts
remaining it sleeps `0.15 * attempt` seconds and retries; on the final
attempt it breaks and re-raises the recorded error. -/
def sendRetryAux (once : Nat → Except Err Frame6) (attempts : Nat) :
    Nat → Nat → Option Err → Except Err Frame6 × List ℚ × Nat
  | 0, _, lastError => (finishSend lastError, [], 0)
  | fuel + 1, attempt, lastError =>
    if attempt > attempts then (finishSend lastError, [], 0)
    else
      match once attempt with
      | .ok f =>
        have := lastError
        (.ok f, [], 1)
      | .error e =>
        if attempts ≤ attempt then (finishSend (some e), [], 1)
        else
          let r := sendRetryAux once attempts fuel (attempt + 1) (some e)
          (r.1, (0.15 : ℚ) * (attempt : ℚ) :: r.2.1, r.2.2 + 1)

/-- `_send` (`client.py:69-92`): up to three attempts. -/
def sendRetry (once : Nat → Except Err Frame6) : Except Err Frame6 × List ℚ × Nat :=
  sendRetryAux once 3 3 1 Option.none

/-! ### Dispatcher exchange with reply check (`_command_expect`) and the
MTX volume setter (`async_set_zone_volume`).

For the driver-level claims the dispatcher is an oracle mapping
(command, argument, accept set) to the `_send` outcome; mutation calls
additionally record the trace of dispatcher exchanges they perform. -/

/-- The `_send` oracle used by driver-level models. -/
abbrev SendOracle := Str → Str → Option (List Str) → Except Err Frame6

/-- `_command_expect` (`client.py:54-67`): one `_send` with
`accept_commands = {reply_command}`, then a defensive tag check. -/
def commandExpect (sendO : SendOracle) (command argument replyCommand : Str) :
    Except Err Str :=
  match sendO command argument (some [replyCommand]) with
  | .error e => .error e
  | .ok f =>
    if f.command ≠ replyCommand then
      .error (.api (S "Unexpected reply command " ++ quoteC :: f.command ++ [quoteC]
        ++ S " for " ++ quoteC :: command ++ [quoteC]
        ++ S ", expected " ++ quoteC :: replyCommand ++ [quoteC]))
    else .ok f.argument

/-- `async_set_zone_volume` (`client.py:283-287`).  Returns the outcome
together with the list of dispatcher exchanges performed, each recorded as
(command, argument). -/
def asyncSetZoneVolume (sendO : SendOracle) (zone volumeDb : Int) :
    Except Err Unit × List (Str × Str) :=
  if volumeDb < 0 ∨ volumeDb > 70 then
    (.error (.api (S "Volume argument must be in range 0..70")), [])
  else
    let command := S "SV" ++ intStr zone
    match commandExpect sendO command (intStr volumeDb) command with
    | .error e => (.error e, [(command, intStr volumeDb)])
    | .ok _ => (.ok (), [(command, intStr volumeDb)])

/-! ### Matrix-mixer driver (`AudacMtxClient`, `client.py:183-302`)

`async_get_state` performs four `_command_expect` exchanges (GVALL, GRALL,
GMALL, GSV); the device is modelled as the four outcomes. -/

/-- State for a single MTX zone (`MtxZoneState`, `client.py:166-172`). -/
structure MtxZoneState where
  volumeDb : Int
  source : Str
  mute : Bool
deriving DecidableEq, Repr

/-- Normalized MTX state (`MtxState`, `client.py:175-180`); zones is the
(insertion-ordered) dict keyed by 1-based zone index. -/
structure MtxState where
  firmware : Option Str
  zones : List (Nat × MtxZoneState)
deriving DecidableEq, Repr

/-- Outcomes of the four exchanges `async_get_state` issues. -/
structure MtxDevice where
  gvall : Except Err Str
  grall : Except Err Str
  gmall : Except Err Str
  gsv : Except Err Str
deriving DecidableEq, Repr

/-- One zone's entry in the `previous_zones` history dict. -/
abbrev ZoneDict := List (Str × PyVal)

/-- The optional `previous_zones` history map (`dict[int, dict[str, Any]]`,
keyed by 1-based zone index). -/
abbrev PrevZones := Option (List (Nat × ZoneDict))

/-- Python truthiness of the optional dict: `not previous_zones` holds for
`None` and for an empty dict. -/
def prevZonesEmpty : PrevZones → Bool
  | Option.none => true
  | some l => l = []

/-- `_list_with_fallback` (`client.py:252-281`): pass a successful read
through; on failure re-raise when there is no history, otherwise
synthesize the `^`-joined list zone-by-zone from `previous_zones`.  For
the mute field the history value goes through Python truthiness
(`"1" if bool(value) else "0"`); other fields go through `str(value)`. -/
def listWithFallback (readResult : Except Err Str) (zoneCount : Nat)
    (previousZones : PrevZones) (field : Str) (defaultValue : Str) :
    Except Err Str :=
  match readResult with
  | .ok s => .ok s
  | .error e =>
    if prevZonesEmpty previousZones then .error e
    else
      let fallbackValues := (List.range' 1 zoneCount).map (fun zone =>
        let zoneState := (alookup (previousZones.getD []) zone).getD []
        let value := (alookup zoneState field).getD (.str defaultValue)
        if field = S "mute" then (if pyTruthy value then S "1" else S "0")
        else pyStr value)
      .ok (joinChar '^' fallbackValues)

/-- The nonblank stripped tokens of a `^`-delimited reply: the list
comprehension `[item.strip() for item in raw.split("^") if item.strip()]`
shared verbatim by `_split_list` (`client.py:299`) and `_parse_tps`
(`client.py:384`). -/
def keptTokens (raw : Str) : List Str :=
  ((splitOnChar '^' raw).map trimStr).filter (· ≠ [])

/-- `_split_list` (`client.py:297-302`): split on `^`, strip each token,
discard blanks; an empty result raises `Received empty {label} list`. -/
def splitMtxList (raw : Str) (label : Str) : Except Err (List Str) :=
  let values := keptTokens raw
  if values = [] then .error (.api (S "Received empty " ++ label ++ S " list"))
  else .ok values

/-- The too-few-values message raised at `client.py:234-237`. -/
def tooFewMsg (zoneCount : Nat) : Str :=
  S "Device returned too few zone values (expected " ++ natStr zoneCount ++ S ")"

/-- The per-zone assembly loop of `async_get_state` (`client.py:227-248`):
for each zone 1..zone_count take the idx-th token of each list (a missing
token raises the too-few error), parse the volume as an integer (a parse
failure raises the invalid-volume error), and record the zone state. -/
def buildZonesAux (zoneCount : Nat) (volumes sources mutes : List Str) :
    Nat → Nat → Except Err (List (Nat × MtxZoneState))
  | _, 0 => .ok []
  | zone, remaining + 1 =>
    let idx := zone - 1
    match volumes[idx]?, sources[idx]?, mutes[idx]? with
    | some volRaw, some srcRaw, some muteRaw =>
      match pyInt volRaw with
      | Option.none =>
        .error (.api (S "Invalid volume value " ++ quoteC :: volRaw ++ [quoteC]
          ++ S " for zone " ++ natStr zone))
      | some volDb =>
        match buildZonesAux zoneCount volumes sources mutes (zone + 1) remaining with
        | .error e => .error e
        | .ok rest => .ok ((zone, ⟨volDb, srcRaw, muteRaw = S "1"⟩) :: rest)
    | _, _, _ => .error (.api (tooFewMsg zoneCount))

/-- The zones dict built by the loop, starting at zone 1. -/
def buildZones (zoneCount : Nat) (volumes sources mutes : List Str) :
    Except Err (List (Nat × MtxZoneState)) :=
  buildZonesAux zoneCount volumes sources mutes 1 zoneCount

/-- `async_get_state` (`client.py:186-250`): three bulk reads with
fallback (fields `volume`/`source`/`mute`, default `"0"`), a
firmware read that is allowed to fail silently, list splitting with labels
`volume`/`routing`/`mute`, then the per-zone assembly loop. -/
def asyncGetState (dev : MtxDevice) (zoneCount : Nat) (previousZones : PrevZones) :
    Except Err MtxState :=
  match listWithFallback dev.gvall zoneCount previousZones (S "volume") (S "0") with
  | .error e => .error e
  | .ok vol =>
  match listWithFallback dev.grall zoneCount previousZones (S "source") (S "0") with
  | .error e => .error e
  | .ok routing =>
  match listWithFallback dev.gmall zoneCount previousZones (S "mute") (S "0") with
  | .error e => .error e
  | .ok mute =>
  let fw : Option Str := match dev.gsv with
    | .ok s => some s
    | .error _ => Option.none
  match splitMtxList vol (S "volume") with
  | .error e => .error e
  | .ok volumes =>
  match splitMtxList routing (S "routing") with
  | .error e => .error e
  | .ok sources =>
  match splitMtxList mute (S "mute") with
  | .error e => .error e
  | .ok mutes =>
  match buildZones zoneCount volumes sources mutes with
  | .error e => .error e
  | .ok zones => .ok ⟨fw, zones⟩

/-! ### Modular-player driver (`AudacXmpClient`, `client.py:327-411`) -/

/-- `normalize_xmp_module` (`const.py:65-70`): strip, lowercase, map the
legacy alias `rmp40` to `fmp40`. -/
def normalizeXmpModule (value : Str) : Str :=
  let module := pyLower (trimStr value)
  if module = S "rmp40" then S "fmp40" else module

/-- The fixed `_TYPE_TO_MODULE` table (`client.py:330-337`). -/
def typeToModule (typeId : Int) : Option Str :=
  if typeId = 1 then some (S "dmp42")
  else if typeId = 4 then some (S "imp40")
  else if typeId = 6 then some (S "fmp40")
  else if typeId = 8 then some (S "bmp42")
  else if typeId = 15 then some (S "none")
  else if typeId = 255 then some (S "none")
  else Option.none

/-- `self._TYPE_TO_MODULE.get(type_id, XMP_MODULE_NMP40)`
(`client.py:395`): unknown codes default to the generic network-streaming
module. -/
def moduleForType (typeId : Int) : Str :=
  (typeToModule typeId).getD (S "nmp40")

/-- `_parse_tps` (`client.py:383-396`): keep the first `slot_count`
tokens, enumerate from 1; a token that does not parse as an integer is
treated as type code 15; map each code through the module table. -/
def parseTps (raw : Str) (slotCount : Nat) : List (Nat × Str) :=
  let parts := keptTokens raw
  if parts = [] then []
  else (enumFrom 1 (parts.take slotCount)).map
    (fun ip => (ip.1, moduleForType ((pyInt ip.2).getD 15)))

/-- State for one XMP44 slot (`XmpSlotState`, `client.py:305-317`). -/
structure XmpSlotState where
  module : Str
  moduleLabel : Option Str
  gain : Option Int
  playerStatus : Option Str
  song : Option Str
  station : Option Str
  program : Option Str
  info : Option Str
  pairing : Option Str
deriving DecidableEq, Repr

/-- Normalized XMP44 state (`XmpState`, `client.py:320-324`). -/
structure XmpState where
  slots : List (Nat × XmpSlotState)
deriving DecidableEq, Repr

/-- The exchanges `AudacXmpClient.async_get_state` issues: the GTPS bulk
read plus the seven best-effort per-slot queries. -/
structure XmpDevice where
  gtps : Except Err Str
  gog : Nat → Except Err Str
  gpstat : Nat → Except Err Str
  gson : Nat → Except Err Str
  gstn : Nat → Except Err Str
  gprgn : Nat → Except Err Str
  gbmpi : Nat → Except Err Str
  gpairs : Nat → Except Err Str

/-- `_try_string` (`client.py:398-402`): a failed query yields `None`. -/
def tryString (r : Except Err Str) : Option Str :=
  match r with
  | .ok s => some s
  | .error _ => Option.none

/-- `_try_int` (`client.py:404-411`): a failed query or a non-integer
reply yields `None`. -/
def tryInt (r : Except Err Str) : Option Int :=
  match tryString r with
  | Option.none => Option.none
  | some v => match pyInt v with
    | Option.none => Option.none
    | some i => some i

/-- The body of the per-slot loop of `AudacXmpClient.async_get_state`
(`client.py:344-367`): the configured override is normalized and wins
unless it is `auto`, in which case the detected module (default `none`)
is used; the seven per-slot queries are best-effort. -/
def xmpSlotFor (dev : XmpDevice) (detected : List (Nat × Str))
    (configuredModules : List (Nat × Str)) (slot : Nat) : XmpSlotState :=
  let configured := normalizeXmpModule ((alookup configuredModules slot).getD (S "auto"))
  let module := if configured ≠ S "auto" then configured
                else (alookup detected slot).getD (S "none")
  { module := module
    moduleLabel := Option.none
    gain := tryInt (dev.gog slot)
    playerStatus := tryString (dev.gpstat slot)
    song := tryString (dev.gson slot)
    station := tryString (dev.gstn slot)
    program := tryString (dev.gprgn slot)
    info := tryString (dev.gbmpi slot)
    pairing := tryString (dev.gpairs slot) }

/-- `AudacXmpClient.async_get_state` (`client.py:339-369`): one GTPS bulk
read (its failure propagates), then the per-slot loop over slots
1..slot_count. -/
def asyncGetStateXmp (dev : XmpDevice) (slotCount : Nat)
    (configuredModules : List (Nat × Str)) : Except Err XmpState :=
  match dev.gtps with
  | .error e => .error e
  | .ok tps =>
    let detected := parseTps tps slotCount
    .ok ⟨(List.range' 1 slotCount).map (fun slot =>
      (slot, xmpSlotFor dev detected configuredModules slot))⟩

/-! ### Coordinator trigger sub-state (`coordinator.py:62-150`)

The `_fmp_trigger_state` dict, keyed by 1-based slot index (slot indices
are modelled as naturals; the integration only uses positive slots). -/

/-- One slot's trigger dict (keys `action`, `contact`, `description`). -/
abbrev TrigDict := List (Str × PyVal)

/-- The `_fmp_trigger_state` dict. -/
abbrev TrigState := List (Nat × TrigDict)

/-- The per-slot entry created in `__init__` (`coordinator.py:62-69`). -/
def defaultTrigDict : TrigDict :=
  [(S "action", .str (S "start")), (S "contact", .int 1), (S "description", .none)]

/-- `__init__` (`coordinator.py:62-69`): an entry for every slot
1..slot_count, created eagerly at construction. -/
def initTrigState (slotCount : Nat) : TrigState :=
  (List.range' 1 slotCount).map (fun slot => (slot, defaultTrigDict))

/-- `self._fmp_trigger_state.setdefault(slot, {})[key] = v`: update the
existing entry in place, or append a fresh one-key entry. -/
def trigSetKey (st : TrigState) (slot : Nat) (key : Str) (v : PyVal) : TrigState :=
  match alookup st slot with
  | some d => aset st slot (aset d key v)
  | Option.none => st ++ [(slot, [(key, v)])]

/-- `get_fmp_trigger_action` (`coordinator.py:120-123`). -/
def getFmpTriggerAction (st : TrigState) (slot : Nat) : Str :=
  pyStr ((alookup ((alookup st slot).getD []) (S "action")).getD (.str (S "start")))

/-- `set_fmp_trigger_action` (`coordinator.py:125-130`): normalize,
reject anything but `start`/`stop` with `ValueError`, then store via
`setdefault`. -/
def setFmpTriggerAction (st : TrigState) (slot : Nat) (action : Str) :
    Except Err TrigState :=
  let normalized := pyLower (trimStr action)
  if normalized ≠ S "start" ∧ normalized ≠ S "stop" then
    .error (.valueError (S "Unsupported trigger action: " ++ action))
  else .ok (trigSetKey st slot (S "action") (.str normalized))

/-- `get_fmp_trigger_contact` (`coordinator.py:132-138`): read, coerce to
int with fallback 1, clamp to 1..15. -/
def getFmpTriggerContact (st : TrigState) (slot : Nat) : Int :=
  let raw := (alookup ((alookup st slot).getD []) (S "contact")).getD (.int 1)
  let value := (pyIntOf raw).getD 1
  max 1 (min 15 value)

/-- `set_fmp_trigger_contact` (`coordinator.py:140-143`): clamp to 1..15
and store via `setdefault`. -/
def setFmpTriggerContact (st : TrigState) (slot : Nat) (contact : Int) : TrigState :=
  let value := max 1 (min 15 contact)
  trigSetKey st slot (S "contact") (.int value)

/-! ## Helper lemmas -/

theorem alookup_aset_self {α β : Type} [DecidableEq α] (l : List (α × β)) (k : α) (v : β) :
    alookup (aset l k v) k = some v := by
  induction l with
  | nil => simp [aset, alookup]
  | cons p rest ih =>
    by_cases h : p.1 = k
    · simp [aset, h, alookup]
    · simp [aset, h, alookup, ih]

theorem alookup_aset_ne {α β : Type} [DecidableEq α] (l : List (α × β)) (k k0 : α) (v : β)
    (h : k ≠ k0) : alookup (aset l k v) k0 = alookup l k0 := by
  induction l with
  | nil => simp [aset, alookup, h]
  | cons p rest ih =>
    by_cases hp : p.1 = k
    · simp [aset, hp, alookup, h]
    · simp [aset, hp, alookup, ih]

theorem alookup_append {α β : Type} [DecidableEq α] (l m : List (α × β)) (k : α) :
    alookup (l ++ m) k =
      (match alookup l k with
       | some v => some v
       | Option.none => alookup m k) := by
  induction l with
  | nil => simp [alookup]
  | cons p rest ih =>
    by_cases hp : p.1 = k
    · simp [alookup, hp]
    · simp [alookup, hp, ih]

theorem alookup_map_range' {β : Type} (f : Nat → β) :
    ∀ n start key : Nat, start ≤ key → key < start + n →
      alookup ((List.range' start n).map (fun i => (i, f i))) key = some (f key) := by
  intro n
  induction n with
  | zero => intro start key h1 h2; omega
  | succ m ih =>
    intro start key h1 h2
    rw [List.range'_succ]
    by_cases hk : start = key
    · subst hk; simp [alookup]
    · simp only [List.map_cons, alookup, if_neg hk]
      exact ih (start + 1) key (by omega) (by omega)

theorem alookup_enumFrom_map {β : Type} (g : Str → β) :
    ∀ (l : List Str) (start k : Nat), start ≤ k → k < start + l.length →
      alookup ((enumFrom start l).map (fun ip => (ip.1, g ip.2))) k
        = (l[k - start]?).map g := by
  intro l
  induction l with
  | nil => intro start k h1 h2; simp at h2; omega
  | cons x xs ih =>
    intro start k h1 h2
    simp only [enumFrom, List.map_cons, alookup]
    by_cases hk : start = k
    · subst hk; simp
    · rw [if_neg hk, ih (start + 1) k (by omega) (by simp at h2 ⊢; omega)]
      have hs : k - start = (k - (start + 1)) + 1 := by omega
      rw [hs, List.getElem?_cons_succ]

theorem splitOnChar_no_sep (sep : Char) :
    ∀ xs : Str, sep ∉ xs → splitOnChar sep xs = [xs] := by
  intro xs
  induction xs with
  | nil => intro _; rfl
  | cons c cs ih =>
    intro h
    have hc : c ≠ sep := fun hc => h (hc ▸ List.mem_cons_self c cs)
    have hcs : sep ∉ cs := fun hm => h (List.mem_cons_of_mem c hm)
    simp [splitOnChar, hc, ih hcs]

theorem splitOnChar_append (sep : Char) :
    ∀ xs ys : Str, sep ∉ xs →
      splitOnChar sep (xs ++ sep :: ys) = xs :: splitOnChar sep ys := by
  intro xs
  induction xs with
  | nil => intro ys _; simp [splitOnChar]
  | cons c cs ih =>
    intro ys h
    have hc : c ≠ sep := fun hc => h (hc ▸ List.mem_cons_self c cs)
    have hcs : sep ∉ cs := fun hm => h (List.mem_cons_of_mem c hm)
    have hrec := ih ys hcs
    simp [splitOnChar, hc, hrec]

theorem trimStr_frame (mid : Str) :
    trimStr ('#' :: (mid ++ ['|', '\r', '\n'])) = '#' :: (mid ++ ['|']) := by
  unfold trimStr
  have h1 : List.dropWhile Char.isWhitespace ('#' :: (mid ++ ['|', '\r', '\n']))
      = '#' :: (mid ++ ['|', '\r', '\n']) := by
    rw [List.dropWhile_cons_of_neg (by decide)]
  rw [h1]
  have h2 : ('#' :: (mid ++ ['|', '\r', '\n'])).reverse
      = '\n' :: '\r' :: '|' :: (mid.reverse ++ ['#']) := by simp
  rw [h2]
  rw [List.dropWhile_cons_of_pos (by decide), List.dropWhile_cons_of_pos (by decide),
    List.dropWhile_cons_of_neg (by decide)]
  simp

theorem asciiDecode_asciiEncode (s : Str) :
    asciiDecode (asciiEncode s) = s.filter (fun c => c.toNat < 128) := by
  induction s with
  | nil => rfl
  | cons c cs ih =>
    by_cases h : c.toNat < 128
    · simp only [asciiEncode, asciiDecode, List.filter_cons] at ih ⊢
      simp [h, ih, Char.ofNat_toNat, asciiEncode, asciiDecode]
    · simp only [asciiEncode, asciiDecode, List.filter_cons] at ih ⊢
      simp [h, ih]

theorem buildZonesAux_error_shape (zc : Nat) (vols srcs muts : List Str)
    (hnum : ∀ t ∈ vols, (pyInt t).isSome) :
    ∀ r zone e, buildZonesAux zc vols srcs muts zone r = .error e →
      e = .api (tooFewMsg zc) := by
  intro r
  induction r with
  | zero => intro zone e h; simp [buildZonesAux] at h
  | succ m ih =>
    intro zone e h
    simp only [buildZonesAux] at h
    rcases hv : vols[zone - 1]? with _ | volRaw
    · simp only [hv] at h; simpa using h.symm
    rcases hs : srcs[zone - 1]? with _ | srcRaw
    · simp only [hv, hs] at h; simpa using h.symm
    rcases hm : muts[zone - 1]? with _ | muteRaw
    · simp only [hv, hs, hm] at h; simpa using h.symm
    simp only [hv, hs, hm] at h
    rcases hp : pyInt volRaw with _ | volDb
    · have hn := hnum volRaw (List.getElem?_mem hv)
      rw [hp] at hn
      simp at hn
    simp only [hp] at h
    rcases hrec : buildZonesAux zc vols srcs muts (zone + 1) m with e0 | l
    · simp only [hrec] at h
      have he : e = e0 := by simpa using h.symm
      rw [he]
      exact ih (zone + 1) e0 hrec
    · simp only [hrec] at h
      exact Except.noConfusion h

theorem buildZonesAux_ok_bounds (zc : Nat) (vols srcs muts : List Str) :
    ∀ r zone l, 1 ≤ zone → buildZonesAux zc vols srcs muts zone r = .ok l →
      ∀ j, zone - 1 ≤ j → j < zone - 1 + r →
        j < vols.length ∧ j < srcs.length ∧ j < muts.length := by
  intro r
  induction r with
  | zero => intro zone l _ _ j h1 h2; omega
  | succ m ih =>
    intro zone l hz h j h1 h2
    simp only [buildZonesAux] at h
    rcases hv : vols[zone - 1]? with _ | volRaw
    · simp only [hv] at h; exact Except.noConfusion h
    rcases hs : srcs[zone - 1]? with _ | srcRaw
    · simp only [hv, hs] at h; exact Except.noConfusion h
    rcases hm : muts[zone - 1]? with _ | muteRaw
    · simp only [hv, hs, hm] at h; exact Except.noConfusion h
    simp only [hv, hs, hm] at h
    rcases hp : pyInt volRaw with _ | volDb
    · simp only [hp] at h; exact Except.noConfusion h
    simp only [hp] at h
    rcases hrec : buildZonesAux zc vols srcs muts (zone + 1) m with e0 | l0
    · simp only [hrec] at h; exact Except.noConfusion h
    by_cases hj : j = zone - 1
    · subst hj
      exact ⟨(List.getElem?_eq_some.mp hv).1, (List.getElem?_eq_some.mp hs).1,
        (List.getElem?_eq_some.mp hm).1⟩
    · exact ih (zone + 1) l0 (by omega) hrec j (by omega) (by omega)

theorem trigSetKey_isSome_self (st : TrigState) (slot : Nat) (key : Str) (v : PyVal) :
    (alookup (trigSetKey st slot key v) slot).isSome := by
  unfold trigSetKey
  rcases h : alookup st slot with _ | d
  · rw [alookup_append, h]
    simp [alookup]
  · rw [alookup_aset_self]
    rfl

theorem trigSetKey_preserves (st : TrigState) (slot slot2 : Nat) (key : Str) (v : PyVal)
    (h : (alookup st slot).isSome) :
    (alookup (trigSetKey st slot2 key v) slot).isSome := by
  unfold trigSetKey
  rcases h2 : alookup st slot2 with _ | d
  · rw [alookup_append]
    rcases hs : alookup st slot with _ | e
    · rw [hs] at h; simp at h
    · simp
  · by_cases hss : slot2 = slot
    · subst hss
      rw [alookup_aset_self]
      rfl
    · rw [alookup_aset_ne st slot2 slot _ hss]
      exact h

theorem readLoop_skip (accept : Option (List Str)) :
    ∀ (junk : List (List Nat)) (good : List Nat) (f : Frame6) (lastRaw : List Nat),
      (∀ r ∈ junk, r ≠ [] ∧ parseLine r accept = Option.none) →
      parseLine good accept = some f →
      readLoop accept (junk.map ReadEvent.line ++ [ReadEvent.line good]) lastRaw
        = .accepted f := by
  intro junk
  induction junk with
  | nil =>
    intro good f lastRaw _ hgood
    have hg : good ≠ [] := by
      intro hnil
      rw [hnil] at hgood
      simp [parseLine, asciiDecode, trimStr, splitOnChar] at hgood
    simp [readLoop, hg, hgood]
  | cons r rest ih =>
    intro good f lastRaw hjunk hgood
    have hr := hjunk r (List.mem_cons_self r rest)
    have hrest : ∀ x ∈ rest, x ≠ [] ∧ parseLine x accept = Option.none :=
      fun x hx => hjunk x (List.mem_cons_of_mem r hx)
    simp only [List.map_cons, List.cons_append, readLoop]
    rw [if_neg hr.1, hr.2]
    exact ih good f r hrest hgood

/-! ## Claim theorems -/

/-- C1: for every integer volume 0..70, `async_set_zone_volume` performs
exactly one dispatcher exchange, with command `SV{zone}` and the decimal
string of the volume as argument; for any volume outside 0..70 it raises
`AudacApiError` (invalid argument) and performs no exchange at all. -/
theorem claim_C1_set_zone_volume (sendO : SendOracle) (zone volumeDb : Int) :
    (0 ≤ volumeDb → volumeDb ≤ 70 →
      (asyncSetZoneVolume sendO zone volumeDb).2
        = [(S "SV" ++ intStr zone, intStr volumeDb)])
    ∧ ((volumeDb < 0 ∨ 70 < volumeDb) →
      asyncSetZoneVolume sendO zone volumeDb
        = (.error (.api (S "Volume argument must be in range 0..70")), [])) := by
  constructor
  · intro h0 h70
    have hc : ¬(volumeDb < 0 ∨ volumeDb > 70) := by omega
    unfold asyncSetZoneVolume
    rw [if_neg hc]
    rcases h : commandExpect sendO (S "SV" ++ intStr zone) (intStr volumeDb)
        (S "SV" ++ intStr zone) with e | a <;> simp [h]
  · intro h
    have hc : volumeDb < 0 ∨ volumeDb > 70 := h
    unfold asyncSetZoneVolume
    rw [if_pos hc]

/-- Witness for C1 at zone 2: volume 35 produces the single exchange
`("SV2", "35")`; volume 71 is rejected with no exchange. -/
theorem claim_C1_witness :
    (asyncSetZoneVolume (fun c _ _ => .ok ⟨S "#", S "X001", S "mtx", c, S "+", S "U"⟩) 2 35).2
      = [(S "SV2", S "35")]
    ∧ asyncSetZoneVolume (fun c _ _ => .ok ⟨S "#", S "X001", S "mtx", c, S "+", S "U"⟩) 2 71
      = (.error (.api (S "Volume argument must be in range 0..70")), []) := by
  constructor
  · rw [(claim_C1_set_zone_volume
      (fun c _ _ => .ok ⟨S "#", S "X001", S "mtx", c, S "+", S "U"⟩) 2 35).1
      (by norm_num) (by norm_num)]
    decide
  · exact (claim_C1_set_zone_volume
      (fun c _ _ => .ok ⟨S "#", S "X001", S "mtx", c, S "+", S "U"⟩) 2 71).2
      (by norm_num)

/-- C2: the dispatcher makes at most 3 single-attempt exchanges; the
backoff sleeps are exactly `0.15 * attempt` seconds for each non-final
failed attempt (so `[0.15, 0.30]` when all three attempts run); and when
all three attempts fail the result is the third attempt's error object,
unchanged. -/
theorem claim_C2_dispatcher_retry (once : Nat → Except Err Frame6) :
    (sendRetry once).2.2 ≤ 3
    ∧ (sendRetry once).2.1
        = (List.range' 1 ((sendRetry once).2.2 - 1)).map (fun i => (0.15 : ℚ) * (i : ℚ))
    ∧ (∀ e1 e2 e3, once 1 = .error e1 → once 2 = .error e2 → once 3 = .error e3 →
        (sendRetry once).1 = .error e3 ∧ (sendRetry once).2.2 = 3) := by
  rcases h1 : once 1 with e1 | f1 <;>
    rcases h2 : once 2 with e2 | f2 <;>
      rcases h3 : once 3 with e3 | f3 <;>
        simp [sendRetry, sendRetryAux, h1, h2, h3, finishSend] <;>
          norm_num [List.range']

/-- Witness for C2: an oracle whose every attempt fails exhausts the three
attempts and re-raises the third attempt's error unchanged. -/
theorem claim_C2_witness :
    (sendRetry (fun _ => .error (.api (S "boom")))).1 = .error (.api (S "boom"))
    ∧ (sendRetry (fun _ => .error (.api (S "boom")))).2.2 = 3 :=
  (claim_C2_dispatcher_retry (fun _ => .error (.api (S "boom")))).2.2
    (.api (S "boom")) (.api (S "boom")) (.api (S "boom")) rfl rfl rfl

/-- C3 (code evaluation at the failing input): with `zone_count = 2`,
`previous_zones = {1: {volume: 10, source: "1", mute: False}}`, a failing
GMALL bulk read and fresh `10^20` / `1^2` volume and routing replies,
`async_get_state` succeeds — but zone 2, absent from the history, gets
`mute = True` (the code evaluates `bool("0")`, which is truthy), not the
`false` default the specification states; the other fields are fresh. -/
theorem claim_C3_mute_default_eval :
    asyncGetState
        ⟨.ok (S "10^20"), .ok (S "1^2"),
         .error (.api (S "GMALL timeout")), .error (.api (S "no fw"))⟩ 2
        (some [(1, [(S "volume", .int 10), (S "source", .str (S "1")),
                    (S "mute", .bool false)])])
      = .ok ⟨Option.none,
          [(1, ⟨10, S "1", false⟩), (2, ⟨20, S "2", true⟩)]⟩ := by
  decide

/-- C4 (code evaluation at the failing input): an exchange whose connect
and write succeed and whose first read raises (for example the per-read
timeout) re-raises as `AudacApiError` with the socket opened but never
closed — `_send_once` has no `finally`, so this exit path leaks the
connection, contradicting the close-on-every-exit-path property. -/
theorem claim_C4_socket_leak_eval :
    sendOnce (S "192.0.2.1") (S "5001") (S "GVALL") Option.none
        ⟨.ok, .ok, [.fail (S "timed out")]⟩
      = ⟨.error (transportErr (S "192.0.2.1") (S "5001") (S "GVALL") (S "timed out")),
         true, false⟩ := by
  decide

/-- C5 (counterexample): the round-trip claim quantifies over every
destination and source id, but a destination containing the `|` delimiter
shifts the fields: encoding destination `a|b`, source `s`, command `CMD`,
argument `ARG` (command and argument satisfy the claim's preconditions)
and decoding with the transport's line parser yields a frame whose command
field is `s`, not `CMD`. -/
theorem claim_C5_counterexample :
    (decodeLine (encodeFrame (S "a|b") (S "s") (S "CMD") (S "ARG"))).map Frame6.command
      = some (S "s")
    ∧ S "s" ≠ trimStr (S "CMD")
    ∧ '|' ∉ S "CMD" ∧ '#' ∉ S "CMD" ∧ '|' ∉ S "ARG" ∧ '#' ∉ S "ARG"
    ∧ (∀ c ∈ S "CMD", c.toNat < 128) ∧ (∀ c ∈ S "ARG", c.toNat < 128) := by
  decide

/-- C5 (amended): when, in addition, the destination and source id are
free of the `|` delimiter, encoding then decoding with the transport's
line parser recovers the command and argument fields up to stripping. -/
theorem claim_C5_roundtrip (destination sourceId command argument : Str)
    (hd : '|' ∉ destination) (hsrc : '|' ∉ sourceId)
    (hc1 : '|' ∉ command) (hc2 : '#' ∉ command)
    (ha1 : '|' ∉ argument) (ha2 : '#' ∉ argument)
    (hca : ∀ c ∈ command, c.toNat < 128) (haa : ∀ c ∈ argument, c.toNat < 128) :
    ∃ f, decodeLine (encodeFrame destination sourceId command argument) = some f
      ∧ f.command = trimStr command ∧ f.argument = trimStr argument := by
  have hcmd : command.filter (fun c => c.toNat < 128) = command :=
    List.filter_eq_self.mpr (fun c hc => by simpa using hca c hc)
  have harg : argument.filter (fun c => c.toNat < 128) = argument :=
    List.filter_eq_self.mpr (fun c hc => by simpa using haa c hc)
  have hd2 : '|' ∉ destination.filter (fun c => c.toNat < 128) :=
    fun hm => hd (List.mem_of_mem_filter hm)
  have hs2 : '|' ∉ sourceId.filter (fun c => c.toNat < 128) :=
    fun hm => hsrc (List.mem_of_mem_filter hm)
  have e1 : S "#|" = ['#', '|'] := rfl
  have e2 : S "|" = ['|'] := rfl
  have e3 : S "|U|\r\n" = ['|', 'U', '|', '\r', '\n'] := rfl
  have hdec : asciiDecode (encodeFrame destination sourceId command argument)
      = '#' :: (('|' :: (destination.filter (fun c => c.toNat < 128)
          ++ '|' :: (sourceId.filter (fun c => c.toNat < 128)
          ++ '|' :: (command ++ '|' :: (argument ++ ['|', 'U'])))))
          ++ ['|', '\r', '\n']) := by
    rw [encodeFrame, asciiDecode_asciiEncode]
    simp only [List.filter_append, hcmd, harg, e1, e2, e3]
    simp [List.append_assoc]
  have hline : trimStr (asciiDecode (encodeFrame destination sourceId command argument))
      = ['#'] ++ '|' :: (destination.filter (fun c => c.toNat < 128)
          ++ '|' :: (sourceId.filter (fun c => c.toNat < 128)
          ++ '|' :: (command ++ '|' :: (argument ++ '|' :: 'U' :: '|' :: [])))) := by
    rw [hdec, trimStr_frame]
    simp [List.append_assoc]
  have hparts : splitOnChar '|'
        (trimStr (asciiDecode (encodeFrame destination sourceId command argument)))
      = [['#'], destination.filter (fun c => c.toNat < 128),
         sourceId.filter (fun c => c.toNat < 128), command, argument, ['U'], []] := by
    rw [hline, splitOnChar_append '|' ['#'] _ (by decide),
      splitOnChar_append '|' _ _ hd2, splitOnChar_append '|' _ _ hs2,
      splitOnChar_append '|' _ _ hc1, splitOnChar_append '|' _ _ ha1]
    rfl
  refine ⟨⟨S "#", destination.filter (fun c => c.toNat < 128),
    sourceId.filter (fun c => c.toNat < 128), trimStr command, trimStr argument, S "U"⟩,
    ?_, rfl, rfl⟩
  simp only [decodeLine, parseLine, hparts]
  rfl

/-- Witness for C5 at the concrete frame of the spec's scenario:
destination `X001`, source `ha`, command `GVALL`, argument `0`. -/
theorem claim_C5_witness :
    ∃ f, decodeLine (encodeFrame (S "X001") (S "ha") (S "GVALL") (S "0")) = some f
      ∧ f.command = trimStr (S "GVALL") ∧ f.argument = trimStr (S "0") :=
  claim_C5_roundtrip (S "X001") (S "ha") (S "GVALL") (S "0")
    (by decide) (by decide) (by decide) (by decide) (by decide) (by decide)
    (by decide) (by decide)

/-- C6: in a single exchange, every received line that is skippable —
empty-parse because it has fewer than six `|`-separated fields, its first
field is not `#`, or its command tag is not in the accept set (an
unsolicited push) — is silently skipped, and the exchange returns the
first frame whose command is accepted, closing the socket. -/
theorem claim_C6_unsolicited_filtering (host port command : Str) (accept : Option (List Str))
    (junk : List (List Nat)) (good : List Nat) (f : Frame6)
    (hjunk : ∀ r ∈ junk, r ≠ [] ∧ parseLine r accept = Option.none)
    (hgood : parseLine good accept = some f) :
    sendOnce host port command accept
        ⟨.ok, .ok, junk.map ReadEvent.line ++ [ReadEvent.line good]⟩
      = ⟨.ok f, true, true⟩ := by
  simp only [sendOnce, readLoop_skip accept junk good f [] hjunk hgood]

/-- Witness for C6, the spec's scenario: an exchange accepting only
`VALL` receives an unsolicited `MU` push frame and then the true `VALL`
reply, and returns the `VALL` frame (argument `10^20^30^40`), ignoring
the push. -/
theorem claim_C6_witness :
    sendOnce (S "192.0.2.1") (S "5001") (S "GVALL") (some [S "VALL"])
        ⟨.ok, .ok,
         [asciiEncode (S "#|X001|M001|MU|1^0|U|\r\n")].map ReadEvent.line
           ++ [ReadEvent.line (asciiEncode (S "#|X001|M001|VALL|10^20^30^40|U|\r\n"))]⟩
      = ⟨.ok ⟨S "#", S "X001", S "M001", S "VALL", S "10^20^30^40", S "U"⟩, true, true⟩ :=
  claim_C6_unsolicited_filtering (S "192.0.2.1") (S "5001") (S "GVALL") (some [S "VALL"])
    [asciiEncode (S "#|X001|M001|MU|1^0|U|\r\n")]
    (asciiEncode (S "#|X001|M001|VALL|10^20^30^40|U|\r\n"))
    ⟨S "#", S "X001", S "M001", S "VALL", S "10^20^30^40", S "U"⟩
    (by decide) (by decide)

/-- C7 (counterexample): with `zone_count = 4` and a volumes reply of only
two tokens (`10^20`), `get_state` raises the too-few-values error, but its
message — `Device returned too few zone values (expected 4)` — names the
expected zone count, not the offending zone index 3, whose decimal string
does not occur in the message. -/
theorem claim_C7_counterexample :
    asyncGetState
        ⟨.ok (S "10^20"), .ok (S "1^2^3^4"), .ok (S "0^0^0^0"), .ok (S "1.00")⟩ 4
        Option.none
      = .error (.api (tooFewMsg 4))
    ∧ strHas (S "3") (tooFewMsg 4) = false := by
  decide

/-- C7 (amended): when the three bulk reads succeed, each reply has at
least one nonblank token, all volume tokens parse as integers, and at
least one of the three token lists is shorter than `zone_count`, then
`get_state` raises an `AudacApiError` whose message states the expected
zone count (`Device returned too few zone values (expected {zone_count})`);
a reply with zero nonblank tokens instead raises the empty-list error
naming the field label. -/
theorem claim_C7_too_few_values (dev : MtxDevice) (zoneCount : Nat) (pz : PrevZones)
    (sv sr sm : Str)
    (hv : dev.gvall = .ok sv) (hr : dev.grall = .ok sr) (hm : dev.gmall = .ok sm)
    (hnum : ∀ t ∈ keptTokens sv, (pyInt t).isSome)
    (hne1 : keptTokens sv ≠ []) (hne2 : keptTokens sr ≠ []) (hne3 : keptTokens sm ≠ [])
    (hshort : (keptTokens sv).length < zoneCount ∨ (keptTokens sr).length < zoneCount
      ∨ (keptTokens sm).length < zoneCount) :
    asyncGetState dev zoneCount pz = .error (.api (tooFewMsg zoneCount)) := by
  unfold asyncGetState
  rw [hv, hr, hm]
  simp only [listWithFallback]
  simp only [splitMtxList, if_neg hne1, if_neg hne2, if_neg hne3]
  rcases hb : buildZones zoneCount (keptTokens sv) (keptTokens sr) (keptTokens sm)
      with e | zones
  · rw [buildZonesAux_error_shape zoneCount _ _ _ hnum zoneCount 1 e hb]
  · exfalso
    have hbounds := buildZonesAux_ok_bounds zoneCount _ _ _ zoneCount 1 zones
      (by omega) hb
    rcases hshort with hx | hx | hx
    · exact absurd ((hbounds (keptTokens sv).length (by omega) (by omega)).1) (by omega)
    · exact absurd ((hbounds (keptTokens sr).length (by omega) (by omega)).2.1) (by omega)
    · exact absurd ((hbounds (keptTokens sm).length (by omega) (by omega)).2.2) (by omega)

/-- Witness for C7 at the counterexample's input: the two-token volumes
reply with `zone_count = 4` raises the expected-count error. -/
theorem claim_C7_witness :
    asyncGetState
        ⟨.ok (S "10^20"), .ok (S "1^2^3^4"), .ok (S "0^0^0^0"), .ok (S "1.00")⟩ 4
        Option.none
      = .error (.api (tooFewMsg 4)) :=
  claim_C7_too_few_values _ 4 Option.none (S "10^20") (S "1^2^3^4") (S "0^0^0^0")
    rfl rfl rfl (by decide) (by decide) (by decide) (by decide) (by decide)

/-- C8: when the GTPS bulk read succeeds, the XMP `get_state` succeeds,
and every slot 1..slot_count gets as its effective module the normalized
configured override (with the legacy alias `rmp40` mapped to `fmp40`)
when that override is not `auto`, else the detected module for the slot,
else `none`; moreover every detected numeric type code outside the fixed
table {1, 4, 6, 8, 15, 255} maps to the generic network-streaming module
`nmp40`. -/
theorem claim_C8_module_resolution (dev : XmpDevice) (slotCount : Nat)
    (cfg : List (Nat × Str)) (tpsRaw : Str) (h : dev.gtps = .ok tpsRaw) :
    (∃ st, asyncGetStateXmp dev slotCount cfg = .ok st
      ∧ ∀ slot, 1 ≤ slot → slot ≤ slotCount →
          ∃ ss, alookup st.slots slot = some ss
            ∧ ss.module =
                (if normalizeXmpModule ((alookup cfg slot).getD (S "auto")) ≠ S "auto" then
                  normalizeXmpModule ((alookup cfg slot).getD (S "auto"))
                 else (alookup (parseTps tpsRaw slotCount) slot).getD (S "none")))
    ∧ (∀ t : Int, t ≠ 1 → t ≠ 4 → t ≠ 6 → t ≠ 8 → t ≠ 15 → t ≠ 255 →
        moduleForType t = S "nmp40") := by
  constructor
  · refine ⟨⟨(List.range' 1 slotCount).map
      (fun slot => (slot, xmpSlotFor dev (parseTps tpsRaw slotCount) cfg slot))⟩, ?_, ?_⟩
    · simp [asyncGetStateXmp, h]
    · intro slot h1 h2
      refine ⟨xmpSlotFor dev (parseTps tpsRaw slotCount) cfg slot, ?_, ?_⟩
      · exact alookup_map_range' _ slotCount 1 slot h1 (by omega)
      · rfl
  · intro t h1 h2 h3 h4 h5 h6
    simp [moduleForType, typeToModule, h1, h2, h3, h4, h5, h6]

/-- Witness for C8: a two-slot device detecting codes `1^4` with no
configured overrides yields a state (slot modules `dmp42`, `imp40`). -/
theorem claim_C8_witness :
    ∃ st, asyncGetStateXmp
        ⟨.ok (S "1^4"), fun _ => .error (.api (S "e")), fun _ => .error (.api (S "e")),
         fun _ => .error (.api (S "e")), fun _ => .error (.api (S "e")),
         fun _ => .error (.api (S "e")), fun _ => .error (.api (S "e")),
         fun _ => .error (.api (S "e"))⟩ 2 [] = .ok st := by
  obtain ⟨⟨st, hok, _⟩, _⟩ := claim_C8_module_resolution
    ⟨.ok (S "1^4"), fun _ => .error (.api (S "e")), fun _ => .error (.api (S "e")),
     fun _ => .error (.api (S "e")), fun _ => .error (.api (S "e")),
     fun _ => .error (.api (S "e")), fun _ => .error (.api (S "e")),
     fun _ => .error (.api (S "e"))⟩ 2 [] (S "1^4") rfl
  exact ⟨st, hok⟩

/-- C10: in the XMP module-type parsing, when the reply carries at least
`slot_count` nonblank tokens, every slot 1..slot_count receives a module
in the detection map — computed as the table image of the token's integer
value with 15 substituted for an unparsable token — so a garbage token
yields the module `none` (type code 15), not the unknown-code default
`nmp40` and not an error. -/
theorem claim_C10_garbage_token (raw : Str) (slotCount : Nat)
    (hlen : slotCount ≤ (keptTokens raw).length) :
    ∀ slot, 1 ≤ slot → slot ≤ slotCount →
      ∃ p m, (keptTokens raw)[slot - 1]? = some p
        ∧ alookup (parseTps raw slotCount) slot = some m
        ∧ m = moduleForType ((pyInt p).getD 15)
        ∧ (pyInt p = Option.none → m = S "none") := by
  intro slot h1 h2
  have hlt : slot - 1 < (keptTokens raw).length := by omega
  obtain ⟨p, hp⟩ : ∃ p, (keptTokens raw)[slot - 1]? = some p :=
    ⟨_, List.getElem?_eq_getElem hlt⟩
  have hne : keptTokens raw ≠ [] := by
    intro hnil
    rw [hnil] at hlt
    simp at hlt
  refine ⟨p, moduleForType ((pyInt p).getD 15), hp, ?_, rfl, ?_⟩
  · unfold parseTps
    rw [if_neg hne]
    rw [alookup_enumFrom_map (fun q => moduleForType ((pyInt q).getD 15))
      ((keptTokens raw).take slotCount) 1 slot h1
      (by rw [List.length_take]; omega)]
    rw [List.getElem?_take, if_pos (by omega), hp]
    rfl
  · intro hnone
    rw [hnone]
    decide

/-- Witness for C10: the reply `1^xx^6^8` with four slots keeps the
garbage token `xx` for slot 2 and detects module `none` there. -/
theorem claim_C10_witness :
    ∃ p m, (keptTokens (S "1^xx^6^8"))[2 - 1]? = some p
      ∧ alookup (parseTps (S "1^xx^6^8") 4) 2 = some m
      ∧ m = moduleForType ((pyInt p).getD 15)
      ∧ (pyInt p = Option.none → m = S "none") :=
  claim_C10_garbage_token (S "1^xx^6^8") 4 (by decide) 2 (by decide) (by decide)

/-- C9 (counterexample): the claim says no TriggerState entry exists for a
slot before any trigger getter or setter has been called for it, but a
coordinator constructed with `slot_count = 4` already holds the default
entry for slot 1 (and every slot 1..4) straight out of `__init__`. -/
theorem claim_C9_counterexample :
    alookup (initTrigState 4) 1 = some defaultTrigDict := by
  decide

/-- C9 (amended): TriggerState entries for slots 1..slot_count are created
eagerly at Coordinator construction with the defaults (action `start`,
contact 1, no description); a setter called on a slot with no entry
creates one lazily (`setdefault`); and entries persist — no operation
removes an existing entry. -/
theorem claim_C9_trigger_entries :
    (∀ slotCount slot, 1 ≤ slot → slot ≤ slotCount →
      alookup (initTrigState slotCount) slot = some defaultTrigDict)
    ∧ (∀ st slot slot2 a st', setFmpTriggerAction st slot2 a = .ok st' →
        (alookup st slot).isSome → (alookup st' slot).isSome)
    ∧ (∀ st slot slot2 c, (alookup st slot).isSome →
        (alookup (setFmpTriggerContact st slot2 c) slot).isSome)
    ∧ (∀ st slot a st', alookup st slot = Option.none →
        setFmpTriggerAction st slot a = .ok st' → (alookup st' slot).isSome)
    ∧ (∀ st slot c, (alookup (setFmpTriggerContact st slot c) slot).isSome) := by
  refine ⟨?_, ?_, ?_, ?_, ?_⟩
  · intro slotCount slot h1 h2
    exact alookup_map_range' (fun _ => defaultTrigDict) slotCount 1 slot h1 (by omega)
  · intro st slot slot2 a st' hset hsome
    unfold setFmpTriggerAction at hset
    by_cases hcond : pyLower (trimStr a) ≠ S "start" ∧ pyLower (trimStr a) ≠ S "stop"
    · rw [if_pos hcond] at hset
      exact Except.noConfusion hset
    · rw [if_neg hcond] at hset
      have hst : st' = trigSetKey st slot2 (S "action") (.str (pyLower (trimStr a))) :=
        (Except.ok.inj hset).symm
      rw [hst]
      exact trigSetKey_preserves st slot slot2 _ _ hsome
  · intro st slot slot2 c hsome
    exact trigSetKey_preserves st slot slot2 _ _ hsome
  · intro st slot a st' hnone hset
    unfold setFmpTriggerAction at hset
    by_cases hcond : pyLower (trimStr a) ≠ S "start" ∧ pyLower (trimStr a) ≠ S "stop"
    · rw [if_pos hcond] at hset
      exact Except.noConfusion hset
    · rw [if_neg hcond] at hset
      have hst : st' = trigSetKey st slot (S "action") (.str (pyLower (trimStr a))) :=
        (Except.ok.inj hset).symm
      rw [hst]
      exact trigSetKey_isSome_self st slot _ _
  · intro st slot c
    exact trigSetKey_isSome_self st slot _ _

/-- Witness for C9: the default entry of slot 2 in a four-slot
coordinator, and lazy creation of slot 7 by a contact setter. -/
theorem claim_C9_witness :
    alookup (initTrigState 4) 2 = some defaultTrigDict
    ∧ (alookup (setFmpTriggerContact [] 7 20) 7).isSome = true := by
  constructor
  · exact claim_C9_trigger_entries.1 4 2 (by norm_num) (by norm_num)
  · exact claim_C9_trigger_entries.2.2.2.2 [] 7 20
